import Mathlib

/-!
Verification of the session-lifecycle / temporal-content subsystem of the
memri photo-album server.

The TypeScript source is shallowly embedded as pure Lean functions acting on
an explicit database state `DB` (lists of table rows, mirroring
src/shared/schema.ts).  Time is a `Millis` integer passed explicitly (each
HTTP request / service invocation is modelled with one fixed `now`, matching
the code's use of `Date.now()` within a single handler).  Asynchronous I/O is
sequentialised in program order.  Blob-storage deletions are recorded in an
event trace together with row deletions; a `blobFail` oracle says which blob
deletions fail (the code logs and continues on such failures, and they never
affect database state).  Storage errors for the session store are modelled by
a `fail` flag at the failing call.

Foreign keys declared with ON DELETE CASCADE in src/shared/schema.ts and
src/migrations/0006_add_temporal_storage.sql are modelled: deleting a
`sessions` row deletes every `collections`/`photos` row whose `session_id`
references it; deleting a `users` row deletes its sessions and
collection-owner rows; deleting a `collections` row deletes its owner rows.
Foreign keys with the default NO ACTION (e.g. `photos.collection_id`,
`collections.user_id`) are not modelled as raising; no claim depends on them.
The module-load timers (`setInterval`) and the deferred one-shot teardown
(`setTimeout` in createTemporaryDemoUser) are scheduling, not state change,
and are outside the embedded state transitions.
-/

namespace Memri

/-- Milliseconds since the epoch, as produced by `Date.now()`. -/
abbrev Millis := Int

/-- Row of the `users` table (src/shared/schema.ts) restricted to the fields
the embedded operations read. -/
structure UserRow where
  id : Nat
  username : String
  deriving Repr, DecidableEq

/-- Row of the `sessions` table (src/shared/schema.ts). -/
structure SessionRow where
  id : String
  userId : Nat
  username : String
  expiresAt : Millis
  deriving Repr, DecidableEq

/-- Row of the `collections` table with its temporal-storage fields.
`isTemporary` is written as a concrete boolean by every embedded operation;
`sessionId` and `expiresAt` are nullable. -/
structure CollectionRow where
  id : Nat
  name : String
  userId : Option Nat
  isTemporary : Bool
  sessionId : Option String
  expiresAt : Option Millis
  deriving Repr, DecidableEq

/-- Row of the `photos` table.  `isLiked` is a nullable boolean column
(`boolean("is_liked").default(false)` with no NOT NULL), hence `Option Bool`. -/
structure PhotoRow where
  id : Nat
  title : String
  filePath : String
  isLiked : Option Bool
  collectionId : Option Nat
  isTemporary : Bool
  sessionId : Option String
  expiresAt : Option Millis
  deriving Repr, DecidableEq

/-- Row of the `collection_owners` join table. -/
structure OwnerRow where
  collectionId : Nat
  userId : Nat
  deriving Repr, DecidableEq

/-- Row of the `partnerships` table (user1_id, user2_id). -/
structure PartnershipRow where
  user1Id : Nat
  user2Id : Nat
  deriving Repr, DecidableEq

/-- The database state: one list per embedded table. -/
structure DB where
  users : List UserRow
  sessions : List SessionRow
  collections : List CollectionRow
  photos : List PhotoRow
  owners : List OwnerRow
  partnerships : List PartnershipRow
  deriving Repr, DecidableEq

/-- Observable side effects of a cleanup invocation, in program order.
`blobDelete key ok` is one attempted Firebase-Storage deletion (`ok = false`
when the oracle makes it fail; the code logs and continues).  The row events
record the bulk SQL deletes. -/
inductive Event where
  | blobDelete (key : String) (ok : Bool)
  | photoRowsDeleted (ids : List Nat)
  | collectionRowsDeleted (ids : List Nat)
  deriving Repr, DecidableEq

/-- Session payload handled by DatabaseSessionStore (interface SessionData in
src/server/routes.ts). -/
structure SessionData where
  userId : Nat
  username : String
  expiresAt : Millis
  deriving Repr, DecidableEq

/-- SESSION_DURATION = 10 * 60 * 1000 (src/server/controllers/auth.ts line 9). -/
def SESSION_DURATION : Millis := 600000

/-- SESSION_REFRESH_THRESHOLD = 2 * 60 * 1000 (src/server/controllers/auth.ts line 10). -/
def SESSION_REFRESH_THRESHOLD : Millis := 120000

/-- DEMO_USERNAME of DemoCleanupService (src/server/models/demo-cleanup-service.ts). -/
def DEMO_USERNAME : String := "demo"

/-- PROTECTED_COLLECTION_IDS, the fixed allowlist shared by DemoCleanupService
and DemoUserService. -/
def PROTECTED_COLLECTION_IDS : List Nat := [1, 2, 3, 4, 6]

/-- JavaScript truthiness of a nullable boolean (`null` is falsy). -/
def jsTruthy (b : Option Bool) : Bool := b.getD false

/-- SQL membership test for a nullable foreign key: NULL is never IN a list. -/
def optMem (o : Option Nat) (ids : List Nat) : Bool :=
  match o with
  | some c => ids.contains c
  | none => false

/-- Whether a nullable `session_id` column references one of the given ids. -/
def sessionRefIn (removed : List String) (o : Option String) : Bool :=
  match o with
  | some s => removed.contains s
  | none => false

/-- Deletion of `sessions` rows matching `p`, with the ON DELETE CASCADE
declared in src/shared/schema.ts: collections and photos whose `session_id`
references a deleted session are removed, and owner rows of removed
collections are removed in turn. -/
def cascadeDeleteSessions (db : DB) (p : SessionRow → Bool) : DB :=
  let removed := (db.sessions.filter p).map (fun s => s.id)
  let deadCols := (db.collections.filter (fun c => sessionRefIn removed c.sessionId)).map (fun c => c.id)
  { db with
    sessions := db.sessions.filter (fun s => !(p s))
    collections := db.collections.filter (fun c => !(sessionRefIn removed c.sessionId))
    photos := db.photos.filter (fun ph => !(sessionRefIn removed ph.sessionId))
    owners := db.owners.filter (fun o => !(deadCols.contains o.collectionId)) }

/-- Deletion of a `users` row, with cascades: the user's sessions (and via
them any session-scoped content), and the user's collection-owner rows. -/
def cascadeDeleteUser (db : DB) (uid : Nat) : DB :=
  let db1 := cascadeDeleteSessions db (fun s => s.userId == uid)
  { db1 with
    users := db1.users.filter (fun u => !(u.id == uid))
    owners := db1.owners.filter (fun o => !(o.userId == uid)) }

/-- Predicate of the expired-temporary-photo query in
TemporalStorageService.cleanExpiredTemporaryContent:
`isTemporary = true AND expiresAt < now` (NULL comparisons are false in SQL). -/
def isExpiredTempPhoto (now : Millis) (p : PhotoRow) : Bool :=
  p.isTemporary && (match p.expiresAt with
    | some e => decide (e < now)
    | none => false)

/-- Predicate of the expired-temporary-collection query, as above. -/
def isExpiredTempCollection (now : Millis) (c : CollectionRow) : Bool :=
  c.isTemporary && (match c.expiresAt with
    | some e => decide (e < now)
    | none => false)

/-- TemporalStorageService.cleanExpiredTemporaryContent
(src/server/models/index.ts lines 94-144): select expired temporary photos,
attempt each blob deletion (errors logged, loop continues), then bulk-delete
the expired temporary photo rows, then the expired temporary collection rows
(the engine cascade removes owner rows of deleted collections). -/
def cleanExpiredTemporaryContent (db : DB) (now : Millis) (blobFail : String → Bool) :
    DB × List Event :=
  let expired := db.photos.filter (isExpiredTempPhoto now)
  let blobEvents := expired.map (fun p => Event.blobDelete p.filePath (!(blobFail p.filePath)))
  let expiredCols := db.collections.filter (isExpiredTempCollection now)
  let db1 : DB :=
    { db with
      photos := db.photos.filter (fun p => !(isExpiredTempPhoto now p))
      collections := db.collections.filter (fun c => !(isExpiredTempCollection now c))
      owners := db.owners.filter (fun o => !((expiredCols.map (fun c => c.id)).contains o.collectionId)) }
  (db1, blobEvents ++ [Event.photoRowsDeleted (expired.map (fun p => p.id)),
                       Event.collectionRowsDeleted (expiredCols.map (fun c => c.id))])

/-- TemporalStorageService.makeCollectionPermanent: set
`isTemporary = false, sessionId = null, expiresAt = null`; the returned flag
is whether a row was affected. -/
def makeCollectionPermanent (db : DB) (cid : Nat) : DB × Bool :=
  ({ db with collections := db.collections.map (fun c =>
      if c.id == cid then { c with isTemporary := false, sessionId := none, expiresAt := none }
      else c) },
   db.collections.any (fun c => c.id == cid))

/-- TemporalStorageService.makePhotoPermanent, as for collections. -/
def makePhotoPermanent (db : DB) (pid : Nat) : DB × Bool :=
  ({ db with photos := db.photos.map (fun p =>
      if p.id == pid then { p with isTemporary := false, sessionId := none, expiresAt := none }
      else p) },
   db.photos.any (fun p => p.id == pid))

/-- TemporalStorageService.getTemporaryContentBySession: pure filter. -/
def getTemporaryContentBySession (db : DB) (sid : String) :
    List CollectionRow × List PhotoRow :=
  (db.collections.filter (fun c => c.isTemporary && c.sessionId == some sid),
   db.photos.filter (fun p => p.isTemporary && p.sessionId == some sid))

/-- TemporalStorageService.extendTemporaryContentExpiration
(src/server/models/index.ts lines 237-263): bulk-update `expiresAt` of every
temporary collection and photo tied to the session. -/
def extendTemporaryContentExpiration (db : DB) (sid : String) (newExp : Millis) : DB :=
  { db with
    collections := db.collections.map (fun c =>
      if c.isTemporary && c.sessionId == some sid then { c with expiresAt := some newExp } else c)
    photos := db.photos.map (fun p =>
      if p.isTemporary && p.sessionId == some sid then { p with expiresAt := some newExp } else p) }

/-- Predicate of the session-scoped temporary-photo query in
TemporalStorageService.deleteTemporaryContentForSession. -/
def isTempOfSessionPhoto (sid : String) (p : PhotoRow) : Bool :=
  p.isTemporary && p.sessionId == some sid

/-- Predicate of the session-scoped temporary-collection query. -/
def isTempOfSessionCollection (sid : String) (c : CollectionRow) : Bool :=
  c.isTemporary && c.sessionId == some sid

/-- TemporalStorageService.deleteTemporaryContentForSession
(src/server/models/index.ts lines 268-311): select the session's temporary
photos, attempt each blob deletion (errors logged, loop continues), then
delete those photo rows, then the session's temporary collection rows. -/
def deleteTemporaryContentForSession (db : DB) (sid : String) (blobFail : String → Bool) :
    DB × List Event :=
  let sessionPhotos := db.photos.filter (isTempOfSessionPhoto sid)
  let blobEvents := sessionPhotos.map (fun p => Event.blobDelete p.filePath (!(blobFail p.filePath)))
  let deadCols := db.collections.filter (isTempOfSessionCollection sid)
  let db1 : DB :=
    { db with
      photos := db.photos.filter (fun p => !(isTempOfSessionPhoto sid p))
      collections := db.collections.filter (fun c => !(isTempOfSessionCollection sid c))
      owners := db.owners.filter (fun o => !((deadCols.map (fun c => c.id)).contains o.collectionId)) }
  (db1, blobEvents ++ [Event.photoRowsDeleted (sessionPhotos.map (fun p => p.id)),
                       Event.collectionRowsDeleted (deadCols.map (fun c => c.id))])

/-- Success path of DatabaseSessionStore.set: INSERT with
onConflictDoUpdate on the id (an upsert). -/
def storeSetOk (db : DB) (sid : String) (d : SessionData) : DB :=
  if db.sessions.any (fun s => s.id == sid) then
    { db with sessions := db.sessions.map (fun s =>
        if s.id == sid then
          { s with userId := d.userId, username := d.username, expiresAt := d.expiresAt }
        else s) }
  else
    { db with sessions := db.sessions ++
        [{ id := sid, userId := d.userId, username := d.username, expiresAt := d.expiresAt }] }

/-- DatabaseSessionStore.set (src/server/routes.ts lines 69-91): on a storage
error the catch block logs and RE-THROWS (`throw error`), so a failing set
surfaces to the caller as an exception, modelled as `Except.error`. -/
def storeSet (fail : Bool) (db : DB) (sid : String) (d : SessionData) : Except Unit DB :=
  if fail then Except.error () else Except.ok (storeSetOk db sid d)

/-- DemoUserService.isTemporaryDemoUser: pure reserved-prefix check,
`username.startsWith('demo_')` (src/server/models/demo-cleanup-service.ts,
DemoUserService section).  Embedded on the character list so that it is
kernel-computable. -/
def isTemporaryDemoUser (username : String) : Bool :=
  "demo_".data.isPrefixOf username.data

/-- The inner join `collections ⋈ collection_owners` restricted to one owner,
as used by both cleanup services. -/
def ownedCollections (db : DB) (uid : Nat) : List CollectionRow :=
  db.collections.filter (fun c =>
    db.owners.any (fun o => o.collectionId == c.id && o.userId == uid))

/-- Ids of the user's owned collections outside the protected allowlist.
DemoCleanupService.cleanupDemoCollectionsAndPhotos filters with SQL
`notInArray`; DemoUserService.cleanupUserCollectionsAndPhotos selects all
owned collections and filters in JS — both compute this set. -/
def nonProtectedOwnedIds (db : DB) (uid : Nat) : List Nat :=
  ((ownedCollections db uid).filter (fun c =>
      !(PROTECTED_COLLECTION_IDS.contains c.id))).map (fun c => c.id)

/-- DemoCleanupService.cleanupPhotosFromFirebaseStorage: attempt the blob
deletion of every photo whose collection is in `ids`, continuing past
individual failures.  Pure trace; blob deletions do not change the database. -/
def cleanupPhotosFromFirebaseStorage (db : DB) (ids : List Nat) (blobFail : String → Bool) :
    List Event :=
  (db.photos.filter (fun p => optMem p.collectionId ids)).map
    (fun p => Event.blobDelete p.filePath (!(blobFail p.filePath)))

/-- DemoCleanupService.cleanupPhotosFromDatabase: delete photo rows whose
collection is in `ids`. -/
def cleanupPhotosFromDatabase (db : DB) (ids : List Nat) : DB :=
  { db with photos := db.photos.filter (fun p => !(optMem p.collectionId ids)) }

/-- DemoCleanupService.cleanupCollectionOwnerships: delete owner rows of the
given collections. -/
def cleanupCollectionOwnerships (db : DB) (ids : List Nat) : DB :=
  { db with owners := db.owners.filter (fun o => !(ids.contains o.collectionId)) }

/-- DemoCleanupService.cleanupCollectionsFromDatabase: delete the collection
rows (the engine cascade removes any remaining owner rows of those
collections). -/
def cleanupCollectionsFromDatabase (db : DB) (ids : List Nat) : DB :=
  { db with
    collections := db.collections.filter (fun c => !(ids.contains c.id))
    owners := db.owners.filter (fun o => !(ids.contains o.collectionId)) }

/-- DemoCleanupService.cleanupDemoCollectionsAndPhotos
(src/server/models/demo-cleanup-service.ts lines 44-87): non-protected owned
collections; if none, stop; else blobs → photo rows → ownership rows →
collection rows, in that order. -/
def cleanupDemoCollectionsAndPhotos (db : DB) (uid : Nat) (blobFail : String → Bool) :
    DB × List Event :=
  let ids := nonProtectedOwnedIds db uid
  if ids.isEmpty then (db, [])
  else
    let ev := cleanupPhotosFromFirebaseStorage db ids blobFail
    let db1 := cleanupPhotosFromDatabase db ids
    let db2 := cleanupCollectionOwnerships db1 ids
    let db3 := cleanupCollectionsFromDatabase db2 ids
    (db3, ev ++ [Event.photoRowsDeleted
                   ((db.photos.filter (fun p => optMem p.collectionId ids)).map (fun p => p.id)),
                 Event.collectionRowsDeleted ids])

/-- DemoCleanupService.cleanupDemoUserContent: resolve the permanent demo
account by username; skip if absent; else clean its non-protected content. -/
def cleanupDemoUserContent (db : DB) (blobFail : String → Bool) : DB × List Event :=
  match db.users.find? (fun u => u.username == DEMO_USERNAME) with
  | none => (db, [])
  | some u => cleanupDemoCollectionsAndPhotos db u.id blobFail

/-- DemoCleanupService.cleanupDemoUserContentForSession
(src/server/models/demo-cleanup-service.ts lines 180-216): look up the
session's account (users ⋈ sessions); no-op when the session is missing or
its account is not the permanent demo user; else clean the demo content. -/
def cleanupDemoUserContentForSession (db : DB) (sid : String) (blobFail : String → Bool) :
    DB × List Event :=
  match db.sessions.find? (fun s => s.id == sid) with
  | none => (db, [])
  | some s =>
    match db.users.find? (fun u => u.id == s.userId) with
    | none => (db, [])
    | some u =>
      if u.username == DEMO_USERNAME then cleanupDemoCollectionsAndPhotos db u.id blobFail
      else (db, [])

/-- DemoUserService.cleanupUserCollectionsAndPhotos: same selection and the
same four private cleanup steps as cleanupDemoCollectionsAndPhotos, adapted
to an arbitrary user id. -/
def cleanupUserCollectionsAndPhotos (db : DB) (uid : Nat) (blobFail : String → Bool) :
    DB × List Event :=
  cleanupDemoCollectionsAndPhotos db uid blobFail

/-- DemoUserService.removeProtectedCollectionOwnerships: remove the user's
owner rows for every protected collection (the code issues one delete for the
first protected id and then one per protected id; the combined effect is this
filter). -/
def removeProtectedCollectionOwnerships (db : DB) (uid : Nat) : DB :=
  { db with owners := db.owners.filter (fun o =>
      !(o.userId == uid && PROTECTED_COLLECTION_IDS.contains o.collectionId)) }

/-- DemoUserService.cleanupTemporaryDemoUser
(src/server/models/demo-cleanup-service.ts, DemoUserService section):
(1) reclaim non-protected collections/photos, (2) drop protected-collection
ownerships, (3) delete the session row when an id was supplied (the engine
cascade removes content referencing it), (4) delete the user row (cascading
its remaining sessions and owner rows). -/
def cleanupTemporaryDemoUser (db : DB) (uid : Nat) (sid? : Option String)
    (blobFail : String → Bool) : DB × List Event :=
  let r1 := cleanupUserCollectionsAndPhotos db uid blobFail
  let db2 := removeProtectedCollectionOwnerships r1.1 uid
  let db3 := match sid? with
    | some s => cascadeDeleteSessions db2 (fun r => r.id == s)
    | none => db2
  (cascadeDeleteUser db3 uid, r1.2)

/-- DemoUserService.grantAccessToProtectedCollections
(src/server/models/demo-cleanup-service.ts, DemoUserService section): first a
pre-check that queries only the FIRST allowlisted id
(`eq(collections.id, this.PROTECTED_COLLECTION_IDS[0])`) and returns early
when that query is empty; otherwise, per allowlisted id: skip if the
collection does not exist, skip if the ownership row already exists, else
insert the ownership row. -/
def grantAccessToProtectedCollections (db : DB) (uid : Nat) : DB :=
  let pre := db.collections.filter (fun c => c.id == PROTECTED_COLLECTION_IDS.headD 0)
  if pre.isEmpty then db
  else
    PROTECTED_COLLECTION_IDS.foldl (fun acc cid =>
      if acc.collections.any (fun c => c.id == cid) then
        if acc.owners.any (fun o => o.collectionId == cid && o.userId == uid) then acc
        else { acc with owners := acc.owners ++ [{ collectionId := cid, userId := uid }] }
      else acc) db

/-- AuthService.createSession success path: insert a session with
`expiresAt = now + SESSION_DURATION` through the store's upsert. -/
def createSessionRun (db : DB) (newSid : String) (userId : Nat) (username : String)
    (now : Millis) : DB :=
  storeSetOk db newSid { userId := userId, username := username, expiresAt := now + SESSION_DURATION }

/-- AuthService.createSession (src/server/controllers/auth.ts lines 45-56)
with the store's failure behaviour: a failing set propagates, so create
propagates. -/
def createSession (fail : Bool) (db : DB) (newSid : String) (userId : Nat) (username : String)
    (now : Millis) : Except Unit DB :=
  storeSet fail db newSid { userId := userId, username := username, expiresAt := now + SESSION_DURATION }

/-- DemoUserService.createTemporaryDemoUser
(src/server/models/demo-cleanup-service.ts, DemoUserService section): insert
the account row, grant protected-collection access, create a session.  The
generated username and ids are parameters; the deferred one-shot teardown it
schedules is a timer, outside the embedded transition. -/
def createTemporaryDemoUser (db : DB) (newUserId : Nat) (username : String) (newSid : String)
    (now : Millis) : DB :=
  let db1 := { db with users := db.users ++ [{ id := newUserId, username := username }] }
  let db2 := grantAccessToProtectedCollections db1 newUserId
  createSessionRun db2 newSid newUserId username now

/-- DemoUserService.cleanupExpiredDemoUsers
(src/server/models/demo-cleanup-service.ts lines 640-686): filter the
reserved-prefix accounts, then for each one query its "active" sessions with
`eq(sessions.expiresAt, new Date())` — an EQUALITY test against the current
instant (the adjacent comment says "Check if not expired") — and invoke full
teardown when that query is empty. -/
def cleanupExpiredDemoUsers (db : DB) (now : Millis) (blobFail : String → Bool) :
    DB × List Event :=
  let demoUsers := db.users.filter (fun u => isTemporaryDemoUser u.username)
  demoUsers.foldl (fun acc u =>
    let active := acc.1.sessions.filter (fun s => s.userId == u.id && s.expiresAt == now)
    if active.isEmpty then
      let r := cleanupTemporaryDemoUser acc.1 u.id none blobFail
      (r.1, acc.2 ++ r.2)
    else acc) (db, [])

/-- DatabaseSessionStore.delete (src/server/routes.ts lines 121-149): look up
the session; if its account has the reserved demo prefix, run full ephemeral
teardown (which deletes the session row); otherwise run the demo-scoped
content cleanup (a no-op unless the account is the permanent demo user) and
then delete the session row (the engine cascade removes content referencing
it). -/
def storeDelete (db : DB) (sid : String) (blobFail : String → Bool) : DB :=
  match db.sessions.find? (fun s => s.id == sid) with
  | none => cascadeDeleteSessions db (fun s => s.id == sid)
  | some s =>
    if isTemporaryDemoUser s.username then
      (cleanupTemporaryDemoUser db s.userId (some sid) blobFail).1
    else
      let db1 := (cleanupDemoUserContentForSession db sid blobFail).1
      cascadeDeleteSessions db1 (fun r => r.id == sid)

/-- DatabaseSessionStore.get (src/server/routes.ts lines 93-119): a storage
error is caught and returned as "absent"; a found row with
`expiresAt < now` is deleted (via the store's delete) and absent is
returned; otherwise the row's data is returned. -/
def storeGet (fail : Bool) (db : DB) (sid : String) (now : Millis) (blobFail : String → Bool) :
    Option SessionData × DB :=
  if fail then (none, db)
  else
    match db.sessions.find? (fun s => s.id == sid) with
    | none => (none, db)
    | some s =>
      if s.expiresAt < now then (none, storeDelete db sid blobFail)
      else (some { userId := s.userId, username := s.username, expiresAt := s.expiresAt }, db)

/-- DatabaseSessionStore.cleanExpiredSessions: bulk delete of rows with
`expiresAt < now` (with the engine cascade on referencing content). -/
def storeCleanExpiredSessions (db : DB) (now : Millis) : DB :=
  cascadeDeleteSessions db (fun s => decide (s.expiresAt < now))

/-- AuthService.getSession (src/server/controllers/auth.ts lines 59-75): read
through the store; when the remaining time is below
SESSION_REFRESH_THRESHOLD, set `expiresAt = now + SESSION_DURATION`, persist
through the store's set (whose failure propagates), and return the updated
session. -/
def authGetSession (failGet failSet : Bool) (db : DB) (sid : String) (now : Millis)
    (blobFail : String → Bool) : Except Unit (Option SessionData × DB) :=
  let r := storeGet failGet db sid now blobFail
  match r.1 with
  | none => Except.ok (none, r.2)
  | some s =>
    if s.expiresAt - now < SESSION_REFRESH_THRESHOLD then
      let s2 : SessionData := { s with expiresAt := now + SESSION_DURATION }
      match storeSet failSet r.2 sid s2 with
      | Except.error e => Except.error e
      | Except.ok db2 => Except.ok (some s2, db2)
    else Except.ok (some s, r.2)

/-- AuthController.refreshSession (src/server/controllers/auth.ts lines
277-311), success path: extend the session's temporary content to
`now + 10 * 60 * 1000`, delete the old session through the store, then create
a fresh session (new id) expiring at `now + SESSION_DURATION`. -/
def refreshSession (db : DB) (sid : String) (userId : Nat) (username : String)
    (now : Millis) (newSid : String) (blobFail : String → Bool) : DB :=
  let db1 := extendTemporaryContentExpiration db sid (now + 600000)
  let db2 := storeDelete db1 sid blobFail
  createSessionRun db2 newSid userId username now

/-- Partner lookup (getUserPartner in src/server/models/database.ts): first
partnership row containing the user, then the partner's user row. -/
def getUserPartner (db : DB) (uid : Nat) : Option UserRow :=
  match db.partnerships.find? (fun pr => pr.user1Id == uid || pr.user2Id == uid) with
  | none => none
  | some pr =>
    let partnerId := if pr.user1Id == uid then pr.user2Id else pr.user1Id
    db.users.find? (fun u => u.id == partnerId)

/-- Insert payload of storage.createCollection, as validated by the create
route. -/
structure InsertCollectionData where
  name : String
  userId : Option Nat
  isTemporary : Bool
  sessionId : Option String
  expiresAt : Option Millis
  deriving Repr, DecidableEq

/-- The collection row created from an insert payload and a fresh serial id. -/
def collectionRowOf (d : InsertCollectionData) (newId : Nat) : CollectionRow :=
  { id := newId, name := d.name, userId := d.userId,
    isTemporary := d.isTemporary, sessionId := d.sessionId, expiresAt := d.expiresAt }

/-- createCollection (src/server/models/collection-model.ts lines 65-91):
insert the row, insert the creator's owner row (the code uses the non-null
assertion `userId!`; the route always supplies it, modelled by `getD 0`),
then insert the partner's owner row when the creator has a partner. -/
def createCollection (db : DB) (d : InsertCollectionData) (newId : Nat) : DB × CollectionRow :=
  let row := collectionRowOf d newId
  let db1 := { db with collections := db.collections ++ [row] }
  let creator := d.userId.getD 0
  let db2 := { db1 with owners := db1.owners ++ [{ collectionId := newId, userId := creator }] }
  let db3 := match getUserPartner db2 creator with
    | some partner => { db2 with owners := db2.owners ++ [{ collectionId := newId, userId := partner.id }] }
    | none => db2
  (db3, row)

/-- Insert payload of storage.createPhoto restricted to embedded fields. -/
structure InsertPhotoData where
  title : String
  filePath : String
  isLiked : Option Bool
  collectionId : Option Nat
  isTemporary : Bool
  sessionId : Option String
  expiresAt : Option Millis
  deriving Repr, DecidableEq

/-- The photo row created from an insert payload and a fresh serial id;
createPhoto stores `isLiked: insertPhoto.isLiked || false` (null coerces to
false). -/
def photoRowOf (d : InsertPhotoData) (newId : Nat) : PhotoRow :=
  { id := newId, title := d.title, filePath := d.filePath,
    isLiked := some (jsTruthy d.isLiked), collectionId := d.collectionId,
    isTemporary := d.isTemporary, sessionId := d.sessionId, expiresAt := d.expiresAt }

/-- createPhoto (src/unnamed/part_007 lines 113-121). -/
def createPhoto (db : DB) (d : InsertPhotoData) (newId : Nat) : DB × PhotoRow :=
  ({ db with photos := db.photos ++ [photoRowOf d newId] }, photoRowOf d newId)

/-- A multipart form value for the `isTemporary` field of the create route. -/
inductive FormVal where
  | str (s : String)
  | boolVal (b : Bool)
  | missing
  deriving Repr, DecidableEq

/-- The route's check `isTemporary === 'true' || isTemporary === true`. -/
def truthyTrue : FormVal → Bool
  | FormVal.str s => s == "true"
  | FormVal.boolVal b => b
  | FormVal.missing => false

/-- One uploaded file of the create-collection request (title and the stored
file name, which savePhotoToFirebaseStorage returns as the file path). -/
structure UploadSpec where
  title : String
  fileName : String
  deriving Repr, DecidableEq

/-- POST / of the collections router (src/server/routes/index.ts lines
48-149), behind requireAuth (so `reqSessionId` is the authenticated, non-empty
session id): reject an empty name; compute
`makeTemporary`, `sessionId = makeTemporary ? req.sessionId : null`,
`expiresAt = makeTemporary && sessionId ? now + 10min : null`; create the
collection; then create one photo per upload with the same temporal fields. -/
def handleCreateCollection (db : DB) (userId : Nat) (reqSessionId : String) (now : Millis)
    (name : String) (tempField : FormVal) (newCollectionId : Nat)
    (uploads : List UploadSpec) (firstPhotoId : Nat) : DB :=
  if name == "" then db
  else
    let makeTemporary := truthyTrue tempField
    let sessionIdVal : Option String := if makeTemporary then some reqSessionId else none
    let expiresAtVal : Option Millis :=
      if makeTemporary && !(reqSessionId == "") then some (now + 600000) else none
    let r := createCollection db
      { name := name, userId := some userId, isTemporary := makeTemporary,
        sessionId := sessionIdVal, expiresAt := expiresAtVal } newCollectionId
    uploads.enum.foldl (fun acc iu =>
        (createPhoto acc
          { title := iu.2.title, filePath := iu.2.fileName, isLiked := some false,
            collectionId := some newCollectionId, isTemporary := makeTemporary,
            sessionId := sessionIdVal, expiresAt := expiresAtVal }
          (firstPhotoId + iu.1)).1)
      r.1

/-- toggleLikePhoto (src/unnamed/part_007 lines 146-159): read the photo;
absent yields no change; else write `isLiked = !photo.isLiked` (JS negation,
so a NULL flag becomes true) and return the updated row. -/
def toggleLikePhoto (db : DB) (pid : Nat) : Option PhotoRow × DB :=
  match db.photos.find? (fun p => p.id == pid) with
  | none => (none, db)
  | some p =>
    let newVal := !(jsTruthy p.isLiked)
    (some { p with isLiked := some newVal },
     { db with photos := db.photos.map (fun q =>
         if q.id == pid then { q with isLiked := some newVal } else q) })

/-- The temporal-flag invariant for a collection row: temporary rows carry a
session and an expiry, permanent rows carry neither (spec §3, §8). -/
def tempFlagOkC (c : CollectionRow) : Bool :=
  if c.isTemporary then c.sessionId.isSome && c.expiresAt.isSome
  else c.sessionId.isNone && c.expiresAt.isNone

/-- The temporal-flag invariant for a photo row. -/
def tempFlagOkP (p : PhotoRow) : Bool :=
  if p.isTemporary then p.sessionId.isSome && p.expiresAt.isSome
  else p.sessionId.isNone && p.expiresAt.isNone

/-! Helper lemmas shared by several claims. -/

/-- Updating exactly the rows matched by `p` (with `p` preserved by the
update) keeps the first `p`-match at its position, updated. -/
theorem find?_map_update {α : Type} (p : α → Bool) (g : α → α)
    (hg : ∀ x, p x = true → p (g x) = true) :
    ∀ (l : List α) (a : α), l.find? p = some a →
      (l.map (fun x => if p x then g x else x)).find? p = some (g a) := by
  intro l
  induction l with
  | nil => intro a h; simp at h
  | cons x xs ih =>
    intro a h
    by_cases hx : p x = true
    · rw [List.find?_cons_of_pos _ hx] at h
      injection h with h
      subst h
      simp only [List.map_cons, if_pos hx]
      exact List.find?_cons_of_pos _ (hg x hx)
    · rw [List.find?_cons_of_neg _ hx] at h
      simp only [List.map_cons, if_neg hx]
      rw [List.find?_cons_of_neg _ hx]
      exact ih a h

/-- Updating exactly the rows matched by `p` (with `p` preserved by the
update) leaves the rows not matched by `p` unchanged. -/
theorem filter_not_map_update {α : Type} (p : α → Bool) (g : α → α)
    (hg : ∀ x, p x = true → p (g x) = true) (l : List α) :
    (l.map (fun x => if p x then g x else x)).filter (fun x => !(p x)) =
      l.filter (fun x => !(p x)) := by
  induction l with
  | nil => rfl
  | cons x xs ih =>
    by_cases hx : p x = true
    · have hgx := hg x hx
      simp [List.filter_cons, hx, hgx, ih]
    · have hx' : p x = false := by simpa using hx
      simp [List.filter_cons, hx', ih]

/-- A successful `find?` witnesses a successful `any`. -/
theorem any_of_find?_eq_some {α : Type} {p : α → Bool} {l : List α} {a : α}
    (h : l.find? p = some a) : l.any p = true := by
  rw [List.any_eq_true]
  exact ⟨a, List.mem_of_find?_eq_some h, List.find?_some h⟩

/-! Claim C1. -/

/-- State exercising the session-renewal path for an ordinary account with
one temporary collection and one temporary photo tied to session s1. -/
def dbC1 : DB :=
  { users := [{ id := 1, username := "alice" }],
    sessions := [{ id := "s1", userId := 1, username := "alice", expiresAt := 300000 }],
    collections := [{ id := 10, name := "trip", userId := some 1, isTemporary := true,
                      sessionId := some "s1", expiresAt := some 300000 }],
    photos := [{ id := 20, title := "pic", filePath := "k20", isLiked := some false,
                 collectionId := some 10, isTemporary := true, sessionId := some "s1",
                 expiresAt := some 300000 }],
    owners := [{ collectionId := 10, userId := 1 }],
    partnerships := [] }

/-- Claim C1: renewal is claimed to leave every temporary item of the session
alive with `expiresAt` equal to the renewed session's expiry.  The code first
extends the content (last conjunct: the extension to 600000 does happen) but
then deletes the old session row, whose ON DELETE CASCADE foreign key removes
every collection and photo carrying that session id, and the fresh session
gets a new id the content never references — so after the refresh the renewed
temporary collection and photo are gone while the new session is alive. -/
theorem c1_refresh_deletes_renewed_temporary_content :
    (refreshSession dbC1 "s1" 1 "alice" 0 "s2" (fun _ => false)).collections = []
    ∧ (refreshSession dbC1 "s1" 1 "alice" 0 "s2" (fun _ => false)).photos = []
    ∧ (refreshSession dbC1 "s1" 1 "alice" 0 "s2" (fun _ => false)).sessions
        = [{ id := "s2", userId := 1, username := "alice", expiresAt := 600000 }]
    ∧ (extendTemporaryContentExpiration dbC1 "s1" 600000).collections.map
        (fun c => c.expiresAt) = [some 600000] := by
  decide

/-! Claim C2. -/

/-- State with one reserved-prefix (ephemeral demo) account whose session is
still valid for another ten minutes at `now = 0`. -/
def dbC2 : DB :=
  { users := [{ id := 5, username := "demo_abc123" }],
    sessions := [{ id := "t1", userId := 5, username := "demo_abc123", expiresAt := 600000 }],
    collections := [], photos := [], owners := [], partnerships := [] }

/-- Claim C2: the sweep is claimed to leave reserved-prefix accounts with a
currently-valid session untouched.  The code's "active session" query is
`eq(sessions.expiresAt, new Date())` — equality with the current instant, not
a future-expiry test — so the account below, whose session expires at 600000
with `now = 0` (first conjunct: the session is genuinely unexpired), has no
"active" session and is fully torn down: account and session rows are gone. -/
theorem c2_sweep_tears_down_account_with_valid_session :
    ((0 : Millis) < 600000
    ∧ dbC2.sessions.map (fun s => s.expiresAt) = [600000])
    ∧ (cleanupExpiredDemoUsers dbC2 0 (fun _ => false)).1.users = []
    ∧ (cleanupExpiredDemoUsers dbC2 0 (fun _ => false)).1.sessions = [] := by
  decide

/-! Claim C3. -/

/-- State in which protected collection 2 exists but protected collection 1
(the FIRST id of the allowlist) does not. -/
def dbC3 : DB :=
  { users := [], sessions := [],
    collections := [{ id := 2, name := "beaches", userId := none, isTemporary := false,
                      sessionId := none, expiresAt := none }],
    photos := [], owners := [], partnerships := [] }

/-- Claim C3: createTemporaryDemoUser is claimed to grant the new account an
ownership row for EVERY allowlisted collection that exists.  The grant's
pre-check queries only the first allowlisted id
(`eq(collections.id, this.PROTECTED_COLLECTION_IDS[0])`, comment "Check if
any exist") and returns early when collection 1 is absent — so with
collection 2 present and collection 1 missing, no ownership row at all is
created for the new account. -/
theorem c3_no_grant_when_first_protected_id_missing :
    dbC3.collections.any (fun c => c.id == 2) = true
    ∧ PROTECTED_COLLECTION_IDS.contains 2 = true
    ∧ (createTemporaryDemoUser dbC3 7 "demo_x1" "t9" 0).owners = [] := by
  decide

/-! Claim C6. -/

/-- Empty state used to exhibit the propagation behaviour of a failing set. -/
def dbC6 : DB :=
  { users := [], sessions := [], collections := [], photos := [], owners := [],
    partnerships := [] }

/-- Claim C6 counterexample: the claim says a storage error during the
store's `set` is caught inside the store and surfaces as "session absent"
rather than propagating.  In the code `set`'s catch block ends in
`throw error`, so a failing set surfaces to its caller as an exception. -/
theorem c6_set_error_propagates :
    storeSet true dbC6 "s1" { userId := 1, username := "alice", expiresAt := 600000 }
      = Except.error () := rfl

/-- Claim C6, amended: storage errors during `get` are caught and surface as
session absent with no state change; storage errors during `set` are caught,
logged and re-thrown, propagating to the caller — in particular `create`,
which writes through `set`, propagates. -/
theorem c6_failure_semantics :
    (∀ (db : DB) (sid : String) (now : Millis) (bf : String → Bool),
        storeGet true db sid now bf = (none, db))
    ∧ (∀ (db : DB) (sid : String) (d : SessionData),
        storeSet true db sid d = Except.error ())
    ∧ (∀ (db : DB) (nsid : String) (uid : Nat) (un : String) (now : Millis),
        createSession true db nsid uid un now = Except.error ()) :=
  ⟨fun _ _ _ _ => rfl, fun _ _ _ => rfl, fun _ _ _ _ _ => rfl⟩

/-! Claim C10. -/

/-- State with one photo whose nullable `isLiked` column is NULL. -/
def dbC10 : DB :=
  { users := [], sessions := [], collections := [],
    photos := [{ id := 42, title := "p", filePath := "k42", isLiked := none,
                 collectionId := none, isTemporary := false, sessionId := none,
                 expiresAt := none }],
    owners := [], partnerships := [] }

/-- Claim C10 counterexample: `isLiked` is a nullable column (and the photo
update route accepts an explicit null), and `!photo.isLiked` sends NULL to
true; so toggling the photo below twice ends with `isLiked = false`, not the
original NULL — the double toggle does not restore the original value. -/
theorem c10_null_flag_double_toggle_not_identity :
    dbC10.photos.map (fun p => p.isLiked) = [none]
    ∧ ((toggleLikePhoto (toggleLikePhoto dbC10 42).2 42).2).photos.map (fun p => p.isLiked)
        = [some false] := by
  decide

/-! Session-table invariance lemmas used for the lazy-expiry claim. -/

/-- Content cleanup does not touch the sessions table. -/
theorem sessions_cleanupDemoCollectionsAndPhotos (db : DB) (uid : Nat) (bf : String → Bool) :
    (cleanupDemoCollectionsAndPhotos db uid bf).1.sessions = db.sessions := by
  by_cases h : (nonProtectedOwnedIds db uid).isEmpty = true
  · simp [cleanupDemoCollectionsAndPhotos, cleanupPhotosFromDatabase,
      cleanupCollectionOwnerships, cleanupCollectionsFromDatabase, h]
  · simp [cleanupDemoCollectionsAndPhotos, cleanupPhotosFromDatabase,
      cleanupCollectionOwnerships, cleanupCollectionsFromDatabase, h]

/-- Ownership removal does not touch the sessions table. -/
theorem sessions_removeProtectedCollectionOwnerships (db : DB) (uid : Nat) :
    (removeProtectedCollectionOwnerships db uid).sessions = db.sessions := rfl

/-- Session-scoped demo cleanup does not touch the sessions table. -/
theorem sessions_cleanupDemoUserContentForSession (db : DB) (sid : String)
    (bf : String → Bool) :
    (cleanupDemoUserContentForSession db sid bf).1.sessions = db.sessions := by
  cases h1 : db.sessions.find? (fun s => s.id == sid) with
  | none => simp [cleanupDemoUserContentForSession, h1]
  | some s =>
    cases h2 : db.users.find? (fun u => u.id == s.userId) with
    | none => simp [cleanupDemoUserContentForSession, h1, h2]
    | some u =>
      by_cases h3 : (u.username == DEMO_USERNAME) = true
      · simp [cleanupDemoUserContentForSession, h1, h2, h3,
          sessions_cleanupDemoCollectionsAndPhotos]
      · have h3' : (u.username == DEMO_USERNAME) = false := by simpa using h3
        simp [cleanupDemoUserContentForSession, h1, h2, h3']

/-- The sessions table left by a full ephemeral teardown that was given a
session id: the given session's row and all the user's rows are gone. -/
theorem sessions_cleanupTemporaryDemoUser_some (db : DB) (uid : Nat) (sid : String)
    (bf : String → Bool) :
    (cleanupTemporaryDemoUser db uid (some sid) bf).1.sessions
      = ((db.sessions.filter (fun r => !(r.id == sid))).filter
          (fun s => !(s.userId == uid))) := by
  show (((cleanupDemoCollectionsAndPhotos db uid bf).1.sessions.filter
          (fun r => !(r.id == sid))).filter (fun s => !(s.userId == uid))) = _
  rw [sessions_cleanupDemoCollectionsAndPhotos]

/-- After the store's delete, no session with the deleted id remains. -/
theorem storeDelete_sessions_none (db : DB) (sid : String) (bf : String → Bool) :
    (storeDelete db sid bf).sessions.find? (fun s => s.id == sid) = none := by
  apply List.find?_eq_none.mpr
  intro x hx
  cases hf : db.sessions.find? (fun s => s.id == sid) with
  | none =>
    have hsess : (storeDelete db sid bf).sessions
        = db.sessions.filter (fun s => !(s.id == sid)) := by
      simp [storeDelete, hf, cascadeDeleteSessions]
    rw [hsess] at hx
    simpa using (List.mem_filter.mp hx).2
  | some s =>
    by_cases hd : isTemporaryDemoUser s.username = true
    · have hsess : (storeDelete db sid bf).sessions
          = ((db.sessions.filter (fun r => !(r.id == sid))).filter
              (fun r => !(r.userId == s.userId))) := by
        simp only [storeDelete, hf, hd, if_true]
        exact sessions_cleanupTemporaryDemoUser_some db s.userId sid bf
      rw [hsess] at hx
      simpa using (List.mem_filter.mp (List.mem_filter.mp hx).1).2
    · have hd' : isTemporaryDemoUser s.username = false := by simpa using hd
      have hsess : (storeDelete db sid bf).sessions
          = ((cleanupDemoUserContentForSession db sid bf).1.sessions).filter
              (fun r => !(r.id == sid)) := by
        simp [storeDelete, hf, hd', cascadeDeleteSessions]
      rw [sessions_cleanupDemoUserContentForSession] at hsess
      rw [hsess] at hx
      simpa using (List.mem_filter.mp hx).2

/-! Claim C4. -/

/-- Claim C4: the store's get never returns an expired session.  Part 1: any
returned session satisfies `now ≤ expiresAt`.  Part 2: a present but expired
row is deleted (no row with that id remains) and absent is returned.
Part 3: a present unexpired row is returned unchanged, with no state change. -/
theorem c4_get_lazy_expiry :
    (∀ (db : DB) (sid : String) (now : Millis) (bf : String → Bool) (d : SessionData),
        (storeGet false db sid now bf).1 = some d → ¬(d.expiresAt < now))
    ∧ (∀ (db : DB) (sid : String) (now : Millis) (bf : String → Bool) (row : SessionRow),
        db.sessions.find? (fun s => s.id == sid) = some row →
        row.expiresAt < now →
        (storeGet false db sid now bf).1 = none
        ∧ (storeGet false db sid now bf).2.sessions.find? (fun s => s.id == sid) = none)
    ∧ (∀ (db : DB) (sid : String) (now : Millis) (bf : String → Bool) (row : SessionRow),
        db.sessions.find? (fun s => s.id == sid) = some row →
        ¬(row.expiresAt < now) →
        storeGet false db sid now bf
          = (some { userId := row.userId, username := row.username,
                    expiresAt := row.expiresAt }, db)) := by
  refine ⟨?_, ?_, ?_⟩
  · intro db sid now bf d h
    cases hf : db.sessions.find? (fun s => s.id == sid) with
    | none => simp [storeGet, hf] at h
    | some s =>
      by_cases he : s.expiresAt < now
      · simp [storeGet, hf, he] at h
      · simp [storeGet, hf, he] at h
        rw [← h]
        exact he
  · intro db sid now bf row hf he
    constructor
    · simp [storeGet, hf, he]
    · have h2 : (storeGet false db sid now bf).2 = storeDelete db sid bf := by
        simp [storeGet, hf, he]
      rw [h2]
      exact storeDelete_sessions_none db sid bf
  · intro db sid now bf row hf he
    simp [storeGet, hf, he]

/-- State for the C4 witness: one session expiring at 100. -/
def dbC4 : DB :=
  { users := [{ id := 1, username := "alice" }],
    sessions := [{ id := "s1", userId := 1, username := "alice", expiresAt := 100 }],
    collections := [], photos := [], owners := [], partnerships := [] }

/-- Witness for C4: at `now = 200` the stored row (expiry 100) is reaped and
absent returned; at `now = 50` it is returned unchanged and is unexpired. -/
theorem c4_get_lazy_expiry_witness :
    ((storeGet false dbC4 "s1" 200 (fun _ => false)).1 = none
      ∧ (storeGet false dbC4 "s1" 200 (fun _ => false)).2.sessions.find?
          (fun s => s.id == "s1") = none)
    ∧ storeGet false dbC4 "s1" 50 (fun _ => false)
        = (some { userId := 1, username := "alice", expiresAt := 100 }, dbC4)
    ∧ ¬(({ userId := 1, username := "alice", expiresAt := 100 } : SessionData).expiresAt
          < (50 : Millis)) :=
  ⟨c4_get_lazy_expiry.2.1 dbC4 "s1" 200 (fun _ => false)
      { id := "s1", userId := 1, username := "alice", expiresAt := 100 }
      (by decide) (by decide),
   c4_get_lazy_expiry.2.2 dbC4 "s1" 50 (fun _ => false)
      { id := "s1", userId := 1, username := "alice", expiresAt := 100 }
      (by decide) (by decide),
   c4_get_lazy_expiry.1 dbC4 "s1" 50 (fun _ => false)
      { userId := 1, username := "alice", expiresAt := 100 } (by decide)⟩

/-! Claim C5. -/

/-- Claim C5: an authenticated read of a present, unexpired session whose
remaining time is below SESSION_REFRESH_THRESHOLD auto-extends the stored
expiry to `now + SESSION_DURATION` before returning the session. -/
theorem c5_touch_to_renew :
    ∀ (db : DB) (sid : String) (now : Millis) (bf : String → Bool) (row : SessionRow),
      db.sessions.find? (fun s => s.id == sid) = some row →
      ¬(row.expiresAt < now) →
      row.expiresAt - now < SESSION_REFRESH_THRESHOLD →
      ∃ db2, authGetSession false false db sid now bf
          = Except.ok (some { userId := row.userId, username := row.username,
                              expiresAt := now + SESSION_DURATION }, db2)
        ∧ db2.sessions.find? (fun s => s.id == sid)
            = some { row with expiresAt := now + SESSION_DURATION } := by
  intro db sid now bf row hfind hlive hthr
  have hget : storeGet false db sid now bf
      = (some { userId := row.userId, username := row.username,
                expiresAt := row.expiresAt }, db) := by
    simp [storeGet, hfind, hlive]
  have hany : db.sessions.any (fun s => s.id == sid) = true := any_of_find?_eq_some hfind
  refine ⟨storeSetOk db sid
      { userId := row.userId, username := row.username,
        expiresAt := now + SESSION_DURATION }, ?_, ?_⟩
  · simp [authGetSession, hget, hthr, storeSet]
  · have hmap := find?_map_update (fun s => s.id == sid)
      (fun s => { s with userId := row.userId, username := row.username,
                         expiresAt := now + SESSION_DURATION })
      (fun x hx => by simpa using hx) db.sessions row hfind
    simp only [storeSetOk, hany, if_pos]
    exact hmap

/-- State for the C5 witness: one session expiring at 100, read at `now = 50`
(remaining 50 ms, far below the two-minute threshold). -/
def dbC5 : DB :=
  { users := [{ id := 1, username := "alice" }],
    sessions := [{ id := "s1", userId := 1, username := "alice", expiresAt := 100 }],
    collections := [], photos := [], owners := [], partnerships := [] }

/-- Witness for C5: the read returns expiry 600050 = 50 + SESSION_DURATION
and the stored row is updated to it, not the original 100. -/
theorem c5_touch_to_renew_witness :
    ∃ db2, authGetSession false false dbC5 "s1" 50 (fun _ => false)
        = Except.ok (some { userId := 1, username := "alice", expiresAt := 600050 }, db2)
      ∧ db2.sessions.find? (fun s => s.id == "s1")
          = some { id := "s1", userId := 1, username := "alice", expiresAt := 600050 } :=
  c5_touch_to_renew dbC5 "s1" 50 (fun _ => false)
    { id := "s1", userId := 1, username := "alice", expiresAt := 100 }
    (by decide) (by decide) (by decide)

/-! Claim C7. -/

/-- A protected id never appears in the to-be-deleted id set: the selection
filters with `notInArray(collections.id, PROTECTED_COLLECTION_IDS)`. -/
theorem protected_not_in_nonProtectedOwnedIds (db : DB) (uid : Nat) (pid : Nat)
    (hp : pid ∈ PROTECTED_COLLECTION_IDS) :
    (nonProtectedOwnedIds db uid).contains pid = false := by
  rw [Bool.eq_false_iff]
  intro hcon
  have hmem : pid ∈ nonProtectedOwnedIds db uid := by simpa using hcon
  simp only [nonProtectedOwnedIds, List.mem_map, List.mem_filter] at hmem
  obtain ⟨c, ⟨hc1, hc2⟩, hcid⟩ := hmem
  rw [hcid] at hc2
  simp at hc2
  exact hc2 hp

/-- Protected collections and their ownership rows survive the shared
four-step cleanup pipeline. -/
theorem protected_preserved_pipeline (db : DB) (uid : Nat) (bf : String → Bool) (pid : Nat)
    (hp : pid ∈ PROTECTED_COLLECTION_IDS) :
    (∀ c ∈ db.collections, c.id = pid →
        c ∈ (cleanupDemoCollectionsAndPhotos db uid bf).1.collections)
    ∧ (∀ o ∈ db.owners, o.collectionId = pid →
        o ∈ (cleanupDemoCollectionsAndPhotos db uid bf).1.owners) := by
  have hnc : (nonProtectedOwnedIds db uid).contains pid = false :=
    protected_not_in_nonProtectedOwnedIds db uid pid hp
  by_cases h : (nonProtectedOwnedIds db uid).isEmpty = true
  · constructor
    · intro c hc _
      simpa [cleanupDemoCollectionsAndPhotos, h] using hc
    · intro o ho _
      simpa [cleanupDemoCollectionsAndPhotos, h] using ho
  · constructor
    · intro c hc hcid
      have hcontains : (nonProtectedOwnedIds db uid).contains c.id = false := by
        rw [hcid]; exact hnc
      simp only [cleanupDemoCollectionsAndPhotos, cleanupPhotosFromDatabase,
        cleanupCollectionOwnerships, cleanupCollectionsFromDatabase, h,
        Bool.false_eq_true, if_false, List.mem_filter]
      exact ⟨hc, by simpa using hcontains⟩
    · intro o ho hoid
      have hcontains : (nonProtectedOwnedIds db uid).contains o.collectionId = false := by
        rw [hoid]; exact hnc
      simp only [cleanupDemoCollectionsAndPhotos, cleanupPhotosFromDatabase,
        cleanupCollectionOwnerships, cleanupCollectionsFromDatabase, h,
        Bool.false_eq_true, if_false, List.mem_filter]
      exact ⟨⟨ho, by simpa using hcontains⟩, by simpa using hcontains⟩

/-- Claim C7: no cleanup path of the demo-cleanup service deletes a protected
collection — after `cleanupDemoUserContent` and after
`cleanupDemoUserContentForSession`, every protected collection row present
before is still present and every ownership row on a protected collection is
still present. -/
theorem c7_protected_collections_preserved :
    ∀ (db : DB) (bf : String → Bool) (pid : Nat), pid ∈ PROTECTED_COLLECTION_IDS →
      ((∀ c ∈ db.collections, c.id = pid →
          c ∈ (cleanupDemoUserContent db bf).1.collections)
        ∧ (∀ o ∈ db.owners, o.collectionId = pid →
          o ∈ (cleanupDemoUserContent db bf).1.owners))
      ∧ (∀ (sid : String),
        (∀ c ∈ db.collections, c.id = pid →
            c ∈ (cleanupDemoUserContentForSession db sid bf).1.collections)
          ∧ (∀ o ∈ db.owners, o.collectionId = pid →
            o ∈ (cleanupDemoUserContentForSession db sid bf).1.owners)) := by
  intro db bf pid hp
  constructor
  · cases hf : db.users.find? (fun u => u.username == DEMO_USERNAME) with
    | none =>
      constructor
      · intro c hc _; simpa [cleanupDemoUserContent, hf] using hc
      · intro o ho _; simpa [cleanupDemoUserContent, hf] using ho
    | some u =>
      have hpr := protected_preserved_pipeline db u.id bf pid hp
      constructor
      · intro c hc hcid
        have := hpr.1 c hc hcid
        simpa [cleanupDemoUserContent, hf] using this
      · intro o ho hoid
        have := hpr.2 o ho hoid
        simpa [cleanupDemoUserContent, hf] using this
  · intro sid
    cases hf1 : db.sessions.find? (fun s => s.id == sid) with
    | none =>
      constructor
      · intro c hc _; simpa [cleanupDemoUserContentForSession, hf1] using hc
      · intro o ho _; simpa [cleanupDemoUserContentForSession, hf1] using ho
    | some s =>
      cases hf2 : db.users.find? (fun u => u.id == s.userId) with
      | none =>
        constructor
        · intro c hc _; simpa [cleanupDemoUserContentForSession, hf1, hf2] using hc
        · intro o ho _; simpa [cleanupDemoUserContentForSession, hf1, hf2] using ho
      | some u =>
        by_cases hu : (u.username == DEMO_USERNAME) = true
        · have hpr := protected_preserved_pipeline db u.id bf pid hp
          constructor
          · intro c hc hcid
            have := hpr.1 c hc hcid
            simpa [cleanupDemoUserContentForSession, hf1, hf2, hu] using this
          · intro o ho hoid
            have := hpr.2 o ho hoid
            simpa [cleanupDemoUserContentForSession, hf1, hf2, hu] using this
        · have hu' : (u.username == DEMO_USERNAME) = false := by simpa using hu
          constructor
          · intro c hc _
            simpa [cleanupDemoUserContentForSession, hf1, hf2, hu'] using hc
          · intro o ho _
            simpa [cleanupDemoUserContentForSession, hf1, hf2, hu'] using ho

/-- State for the C7 witness: the demo account owns protected collection 1
and a non-protected collection 50 with one photo; session d1 is the demo
account's. -/
def dbC7 : DB :=
  { users := [{ id := 3, username := "demo" }],
    sessions := [{ id := "d1", userId := 3, username := "demo", expiresAt := 600000 }],
    collections := [{ id := 1, name := "prot", userId := some 3, isTemporary := false,
                      sessionId := none, expiresAt := none },
                    { id := 50, name := "scratch", userId := some 3, isTemporary := false,
                      sessionId := none, expiresAt := none }],
    photos := [{ id := 70, title := "ph", filePath := "k70", isLiked := some false,
                 collectionId := some 50, isTemporary := false, sessionId := none,
                 expiresAt := none }],
    owners := [{ collectionId := 1, userId := 3 }, { collectionId := 50, userId := 3 }],
    partnerships := [] }

/-- Witness for C7: protected collection 1 and its demo ownership row
survive both cleanup entry points on a state where cleanup does delete the
non-protected collection 50. -/
theorem c7_protected_collections_preserved_witness :
    (({ id := 1, name := "prot", userId := some 3, isTemporary := false,
        sessionId := none, expiresAt := none } : CollectionRow)
        ∈ (cleanupDemoUserContent dbC7 (fun _ => false)).1.collections
      ∧ ({ collectionId := 1, userId := 3 } : OwnerRow)
          ∈ (cleanupDemoUserContent dbC7 (fun _ => false)).1.owners)
    ∧ (({ id := 1, name := "prot", userId := some 3, isTemporary := false,
          sessionId := none, expiresAt := none } : CollectionRow)
        ∈ (cleanupDemoUserContentForSession dbC7 "d1" (fun _ => false)).1.collections
      ∧ ({ collectionId := 1, userId := 3 } : OwnerRow)
          ∈ (cleanupDemoUserContentForSession dbC7 "d1" (fun _ => false)).1.owners) :=
  ⟨⟨(c7_protected_collections_preserved dbC7 (fun _ => false) 1 (by decide)).1.1
      { id := 1, name := "prot", userId := some 3, isTemporary := false,
        sessionId := none, expiresAt := none } (by decide) (by decide),
    (c7_protected_collections_preserved dbC7 (fun _ => false) 1 (by decide)).1.2
      { collectionId := 1, userId := 3 } (by decide) (by decide)⟩,
   ⟨((c7_protected_collections_preserved dbC7 (fun _ => false) 1 (by decide)).2 "d1").1
      { id := 1, name := "prot", userId := some 3, isTemporary := false,
        sessionId := none, expiresAt := none } (by decide) (by decide),
    ((c7_protected_collections_preserved dbC7 (fun _ => false) 1 (by decide)).2 "d1").2
      { collectionId := 1, userId := 3 } (by decide) (by decide)⟩⟩

/-! Claim C8. -/

/-- Position of each blob event versus the bulk photo-row delete in a trace
of shape `blob events ++ [photo rows deleted, collection rows deleted]`. -/
theorem trace_blob_before_rows (expired : List PhotoRow) (bf : String → Bool)
    (e2 : Event) (p : PhotoRow) (hp : p ∈ expired) :
    ∃ i j : Nat, i < j
      ∧ ((expired.map (fun q => Event.blobDelete q.filePath (!(bf q.filePath))))
           ++ [Event.photoRowsDeleted (expired.map (fun q => q.id)), e2])[i]?
          = some (Event.blobDelete p.filePath (!(bf p.filePath)))
      ∧ ((expired.map (fun q => Event.blobDelete q.filePath (!(bf q.filePath))))
           ++ [Event.photoRowsDeleted (expired.map (fun q => q.id)), e2])[j]?
          = some (Event.photoRowsDeleted (expired.map (fun q => q.id))) := by
  obtain ⟨n, hn, he⟩ := List.mem_iff_getElem.mp hp
  refine ⟨n, expired.length, hn, ?_, ?_⟩
  · rw [List.getElem?_append, if_pos (by simpa using hn)]
    simp [List.getElem?_eq_getElem hn, he]
  · rw [List.getElem?_append, if_neg (by simp)]
    simp

/-- Claim C8: in both cleanup paths, every affected temporary photo's blob
deletion is attempted (with the stored key) at a strictly earlier trace
position than the bulk delete that removes its row, and blob failures (the
`bf` oracle) never change the resulting database state. -/
theorem c8_blob_deletion_precedes_row_deletion :
    (∀ (db : DB) (now : Millis) (bf : String → Bool) (p : PhotoRow),
        p ∈ db.photos → isExpiredTempPhoto now p = true →
        ∃ i j : Nat, i < j
          ∧ (cleanExpiredTemporaryContent db now bf).2[i]?
              = some (Event.blobDelete p.filePath (!(bf p.filePath)))
          ∧ (cleanExpiredTemporaryContent db now bf).2[j]?
              = some (Event.photoRowsDeleted
                  ((db.photos.filter (isExpiredTempPhoto now)).map (fun q => q.id)))
          ∧ p.id ∈ (db.photos.filter (isExpiredTempPhoto now)).map (fun q => q.id))
    ∧ (∀ (db : DB) (now : Millis) (bf bg : String → Bool),
        (cleanExpiredTemporaryContent db now bf).1 = (cleanExpiredTemporaryContent db now bg).1)
    ∧ (∀ (db : DB) (sid : String) (bf : String → Bool) (p : PhotoRow),
        p ∈ db.photos → isTempOfSessionPhoto sid p = true →
        ∃ i j : Nat, i < j
          ∧ (deleteTemporaryContentForSession db sid bf).2[i]?
              = some (Event.blobDelete p.filePath (!(bf p.filePath)))
          ∧ (deleteTemporaryContentForSession db sid bf).2[j]?
              = some (Event.photoRowsDeleted
                  ((db.photos.filter (isTempOfSessionPhoto sid)).map (fun q => q.id)))
          ∧ p.id ∈ (db.photos.filter (isTempOfSessionPhoto sid)).map (fun q => q.id))
    ∧ (∀ (db : DB) (sid : String) (bf bg : String → Bool),
        (deleteTemporaryContentForSession db sid bf).1
          = (deleteTemporaryContentForSession db sid bg).1) := by
  refine ⟨?_, fun db now bf bg => rfl, ?_, fun db sid bf bg => rfl⟩
  · intro db now bf p hmem hexp
    have hpf : p ∈ db.photos.filter (isExpiredTempPhoto now) :=
      List.mem_filter.mpr ⟨hmem, hexp⟩
    obtain ⟨i, j, hij, h1, h2⟩ :=
      trace_blob_before_rows (db.photos.filter (isExpiredTempPhoto now)) bf
        (Event.collectionRowsDeleted
          ((db.collections.filter (isExpiredTempCollection now)).map (fun c => c.id)))
        p hpf
    exact ⟨i, j, hij, h1, h2, List.mem_map.mpr ⟨p, hpf, rfl⟩⟩
  · intro db sid bf p hmem hexp
    have hpf : p ∈ db.photos.filter (isTempOfSessionPhoto sid) :=
      List.mem_filter.mpr ⟨hmem, hexp⟩
    obtain ⟨i, j, hij, h1, h2⟩ :=
      trace_blob_before_rows (db.photos.filter (isTempOfSessionPhoto sid)) bf
        (Event.collectionRowsDeleted
          ((db.collections.filter (isTempOfSessionCollection sid)).map (fun c => c.id)))
        p hpf
    exact ⟨i, j, hij, h1, h2, List.mem_map.mpr ⟨p, hpf, rfl⟩⟩

/-- State for the C8 witness: one expired temporary photo (expiry 10, swept
at now = 100) whose blob deletion fails, inside an expired temporary
collection of session x. -/
def dbC8 : DB :=
  { users := [], sessions := [],
    collections := [{ id := 60, name := "tmp", userId := none, isTemporary := true,
                      sessionId := some "x", expiresAt := some 10 }],
    photos := [{ id := 61, title := "ph", filePath := "k61", isLiked := some false,
                 collectionId := some 60, isTemporary := true, sessionId := some "x",
                 expiresAt := some 10 }],
    owners := [], partnerships := [] }

/-- Witness for C8, instantiating both pipelines on dbC8 with a blob oracle
that fails on the photo's key. -/
theorem c8_blob_deletion_precedes_row_deletion_witness :
    (∃ i j : Nat, i < j
      ∧ (cleanExpiredTemporaryContent dbC8 100 (fun _ => true)).2[i]?
          = some (Event.blobDelete "k61" false)
      ∧ (cleanExpiredTemporaryContent dbC8 100 (fun _ => true)).2[j]?
          = some (Event.photoRowsDeleted [61])
      ∧ (61 : Nat) ∈ ([61] : List Nat))
    ∧ (∃ i j : Nat, i < j
      ∧ (deleteTemporaryContentForSession dbC8 "x" (fun _ => true)).2[i]?
          = some (Event.blobDelete "k61" false)
      ∧ (deleteTemporaryContentForSession dbC8 "x" (fun _ => true)).2[j]?
          = some (Event.photoRowsDeleted [61])
      ∧ (61 : Nat) ∈ ([61] : List Nat)) :=
  ⟨c8_blob_deletion_precedes_row_deletion.1 dbC8 100 (fun _ => true)
      { id := 61, title := "ph", filePath := "k61", isLiked := some false,
        collectionId := some 60, isTemporary := true, sessionId := some "x",
        expiresAt := some 10 } (by decide) (by decide),
   c8_blob_deletion_precedes_row_deletion.2.2.1 dbC8 "x" (fun _ => true)
      { id := 61, title := "ph", filePath := "k61", isLiked := some false,
        collectionId := some 60, isTemporary := true, sessionId := some "x",
        expiresAt := some 10 } (by decide) (by decide)⟩

/-! Claim C9. -/

/-- createCollection appends exactly the new collection row. -/
theorem collections_createCollection (db : DB) (d : InsertCollectionData) (newId : Nat) :
    (createCollection db d newId).1.collections = db.collections ++ [collectionRowOf d newId] := by
  simp only [createCollection]
  split <;> rfl

/-- createCollection does not touch the photos table. -/
theorem photos_createCollection (db : DB) (d : InsertCollectionData) (newId : Nat) :
    (createCollection db d newId).1.photos = db.photos := by
  simp only [createCollection]
  split <;> rfl

/-- The photo-upload loop of the create route appends exactly one photo row
per upload and touches no other table column we track. -/
theorem foldl_createPhoto_fields (d : Nat × UploadSpec → InsertPhotoData)
    (n : Nat × UploadSpec → Nat) :
    ∀ (l : List (Nat × UploadSpec)) (acc : DB),
      ((l.foldl (fun a iu => (createPhoto a (d iu) (n iu)).1) acc).photos
          = acc.photos ++ l.map (fun iu => photoRowOf (d iu) (n iu)))
      ∧ ((l.foldl (fun a iu => (createPhoto a (d iu) (n iu)).1) acc).collections
          = acc.collections) := by
  intro l
  induction l with
  | nil => intro acc; simp
  | cons x xs ih =>
    intro acc
    have h := ih ((createPhoto acc (d x) (n x)).1)
    constructor
    · rw [List.foldl_cons, h.1]
      simp [createPhoto]
    · rw [List.foldl_cons, h.2]
      rfl

/-- Claim C9: every collection or photo row produced or modified by the
authenticated create-collection route (whose `reqSessionId` is non-empty,
guaranteed by requireAuth), by makeCollectionPermanent or by
makePhotoPermanent satisfies the temporal-flag invariant: any row of the
result is either an untouched row of the input state or satisfies the
invariant. -/
theorem c9_temporal_flag_invariant :
    (∀ (db : DB) (uid : Nat) (sid : String) (now : Millis) (name : String) (tf : FormVal)
        (ncid : Nat) (ups : List UploadSpec) (pfid : Nat), sid ≠ "" →
        (∀ c ∈ (handleCreateCollection db uid sid now name tf ncid ups pfid).collections,
            c ∈ db.collections ∨ tempFlagOkC c = true)
        ∧ (∀ p ∈ (handleCreateCollection db uid sid now name tf ncid ups pfid).photos,
            p ∈ db.photos ∨ tempFlagOkP p = true))
    ∧ (∀ (db : DB) (cid : Nat),
        ∀ c ∈ (makeCollectionPermanent db cid).1.collections,
          c ∈ db.collections ∨ tempFlagOkC c = true)
    ∧ (∀ (db : DB) (pid : Nat),
        ∀ p ∈ (makePhotoPermanent db pid).1.photos,
          p ∈ db.photos ∨ tempFlagOkP p = true) := by
  refine ⟨?_, ?_, ?_⟩
  · intro db uid sid now name tf ncid ups pfid hsid
    have hsid' : (sid == "") = false := by
      simpa using hsid
    by_cases hname : (name == "") = true
    · constructor
      · intro c hc; left; simpa [handleCreateCollection, hname] using hc
      · intro p hp; left; simpa [handleCreateCollection, hname] using hp
    · have hname' : (name == "") = false := by simpa using hname
      have hfold := foldl_createPhoto_fields
        (fun iu => { title := iu.2.title, filePath := iu.2.fileName, isLiked := some false,
                     collectionId := some ncid, isTemporary := truthyTrue tf,
                     sessionId := if truthyTrue tf then some sid else none,
                     expiresAt := if truthyTrue tf && !(sid == "") then some (now + 600000)
                                  else none })
        (fun iu => pfid + iu.1) ups.enum
        (createCollection db
          { name := name, userId := some uid, isTemporary := truthyTrue tf,
            sessionId := if truthyTrue tf then some sid else none,
            expiresAt := if truthyTrue tf && !(sid == "") then some (now + 600000)
                         else none } ncid).1
      have hres : handleCreateCollection db uid sid now name tf ncid ups pfid
          = ups.enum.foldl (fun a iu => (createPhoto a
              { title := iu.2.title, filePath := iu.2.fileName, isLiked := some false,
                collectionId := some ncid, isTemporary := truthyTrue tf,
                sessionId := if truthyTrue tf then some sid else none,
                expiresAt := if truthyTrue tf && !(sid == "") then some (now + 600000)
                             else none } (pfid + iu.1)).1)
            (createCollection db
              { name := name, userId := some uid, isTemporary := truthyTrue tf,
                sessionId := if truthyTrue tf then some sid else none,
                expiresAt := if truthyTrue tf && !(sid == "") then some (now + 600000)
                             else none } ncid).1 := by
        simp only [handleCreateCollection, hname', Bool.false_eq_true, if_false]
      constructor
      · intro c hc
        rw [hres, hfold.2, collections_createCollection] at hc
        rcases List.mem_append.mp hc with hin | hnew
        · exact Or.inl hin
        · right
          have hc' : c = collectionRowOf
              { name := name, userId := some uid, isTemporary := truthyTrue tf,
                sessionId := if truthyTrue tf then some sid else none,
                expiresAt := if truthyTrue tf && !(sid == "") then some (now + 600000)
                             else none } ncid := by simpa using hnew
          rw [hc']
          cases hmk : truthyTrue tf with
          | true => simp [tempFlagOkC, collectionRowOf, hmk, hsid']
          | false => simp [tempFlagOkC, collectionRowOf, hmk]
      · intro p hp
        rw [hres, hfold.1, photos_createCollection] at hp
        rcases List.mem_append.mp hp with hin | hnew
        · exact Or.inl hin
        · right
          obtain ⟨iu, _, hiu⟩ := List.mem_map.mp hnew
          rw [← hiu]
          cases hmk : truthyTrue tf with
          | true => simp [tempFlagOkP, photoRowOf, hmk, hsid']
          | false => simp [tempFlagOkP, photoRowOf, hmk]
  · intro db cid c hc
    simp only [makeCollectionPermanent, List.mem_map] at hc
    obtain ⟨a, ha, hac⟩ := hc
    by_cases h : (a.id == cid) = true
    · right
      rw [if_pos h] at hac
      rw [← hac]
      simp [tempFlagOkC]
    · left
      rw [if_neg h] at hac
      rwa [← hac]
  · intro db pid p hp
    simp only [makePhotoPermanent, List.mem_map] at hp
    obtain ⟨a, ha, hap⟩ := hp
    by_cases h : (a.id == pid) = true
    · right
      rw [if_pos h] at hap
      rw [← hap]
      simp [tempFlagOkP]
    · left
      rw [if_neg h] at hap
      rwa [← hap]

/-- State for the C9 witness: empty database, one temporal create with one
upload, plus one temporary collection to make permanent. -/
def dbC9 : DB :=
  { users := [], sessions := [], collections := [], photos := [], owners := [],
    partnerships := [] }

/-- Second state for the C9 witness: a temporary collection to be made
permanent. -/
def dbC9b : DB :=
  { users := [], sessions := [],
    collections := [{ id := 8, name := "tmp", userId := some 1, isTemporary := true,
                      sessionId := some "s1", expiresAt := some 600000 }],
    photos := [], owners := [], partnerships := [] }

/-- The collection row the witness create produces. -/
def rowC9new : CollectionRow :=
  { id := 5, name := "n", userId := some 1, isTemporary := true,
    sessionId := some "s1", expiresAt := some 600000 }

/-- The collection row left by the witness makeCollectionPermanent call. -/
def rowC9perm : CollectionRow :=
  { id := 8, name := "tmp", userId := some 1, isTemporary := false,
    sessionId := none, expiresAt := none }

/-- Witness for C9: the collection created by a temporal create on session s1
and the row left by makeCollectionPermanent each satisfy the disjunction. -/
theorem c9_temporal_flag_invariant_witness :
    (rowC9new ∈ dbC9.collections ∨ tempFlagOkC rowC9new = true)
    ∧ (rowC9perm ∈ dbC9b.collections ∨ tempFlagOkC rowC9perm = true) :=
  ⟨(c9_temporal_flag_invariant.1 dbC9 1 "s1" 0 "n" (FormVal.str "true") 5
      [{ title := "t", fileName := "f1" }] 100 (by decide)).1 rowC9new (by decide),
   c9_temporal_flag_invariant.2.1 dbC9b 8 rowC9perm (by decide)⟩

/-! Claim C10, amended part. -/

/-- One unfolding step of toggleLikePhoto when the photo is found. -/
theorem toggleLikePhoto_eq_some (db : DB) (pid : Nat) (p : PhotoRow)
    (h : db.photos.find? (fun q => q.id == pid) = some p) :
    toggleLikePhoto db pid
      = (some { p with isLiked := some (!(jsTruthy p.isLiked)) },
         { db with photos := db.photos.map (fun q =>
             if q.id == pid then { q with isLiked := some (!(jsTruthy p.isLiked)) } else q) }) := by
  unfold toggleLikePhoto
  rw [h]

/-- Claim C10, amended: toggleLikePhoto of a missing id returns absent with
no state change; of an existing id it returns the found photo with
`isLiked` set to the JS negation of its truthiness (so a NULL flag becomes
true); and the double toggle restores the photo and leaves every other photo
unchanged whenever the original `isLiked` is non-null. -/
theorem c10_toggle_like_photo :
    (∀ (db : DB) (pid : Nat),
        db.photos.find? (fun p => p.id == pid) = none → toggleLikePhoto db pid = (none, db))
    ∧ (∀ (db : DB) (pid : Nat) (p : PhotoRow),
        db.photos.find? (fun q => q.id == pid) = some p →
        (toggleLikePhoto db pid).1 = some { p with isLiked := some (!(jsTruthy p.isLiked)) })
    ∧ (∀ (db : DB) (pid : Nat) (p : PhotoRow) (b : Bool),
        db.photos.find? (fun q => q.id == pid) = some p →
        p.isLiked = some b →
        ((toggleLikePhoto (toggleLikePhoto db pid).2 pid).2.photos.find?
            (fun q => q.id == pid) = some p)
        ∧ ((toggleLikePhoto (toggleLikePhoto db pid).2 pid).2.photos.filter
              (fun q => !(q.id == pid))
            = db.photos.filter (fun q => !(q.id == pid)))) := by
  refine ⟨?_, ?_, ?_⟩
  · intro db pid h
    unfold toggleLikePhoto
    rw [h]
  · intro db pid p h
    rw [toggleLikePhoto_eq_some db pid p h]
  · intro db pid p b h hb
    have e1 := toggleLikePhoto_eq_some db pid p h
    have hph1 : (toggleLikePhoto db pid).2.photos
        = db.photos.map (fun q => if q.id == pid
            then { q with isLiked := some (!(jsTruthy p.isLiked)) } else q) := by
      rw [e1]
    have hf1 : (toggleLikePhoto db pid).2.photos.find? (fun q => q.id == pid)
        = some { p with isLiked := some (!(jsTruthy p.isLiked)) } := by
      rw [hph1]
      exact find?_map_update (fun q => q.id == pid)
        (fun q => { q with isLiked := some (!(jsTruthy p.isLiked)) })
        (fun x hx => hx) db.photos p h
    have e2 := toggleLikePhoto_eq_some ((toggleLikePhoto db pid).2) pid
      { p with isLiked := some (!(jsTruthy p.isLiked)) } hf1
    have hph2 : (toggleLikePhoto (toggleLikePhoto db pid).2 pid).2.photos
        = (toggleLikePhoto db pid).2.photos.map (fun q => if q.id == pid
            then { q with isLiked := some (!(jsTruthy
                ({ p with isLiked := some (!(jsTruthy p.isLiked)) } : PhotoRow).isLiked)) }
            else q) := by
      rw [e2]
    have hval : (!(jsTruthy
        ({ p with isLiked := some (!(jsTruthy p.isLiked)) } : PhotoRow).isLiked)) = b := by
      simp [jsTruthy, hb]
    constructor
    · have hf2 := find?_map_update (fun q => q.id == pid)
        (fun q => { q with isLiked := some (!(jsTruthy
            ({ p with isLiked := some (!(jsTruthy p.isLiked)) } : PhotoRow).isLiked)) })
        (fun x hx => hx) ((toggleLikePhoto db pid).2.photos) _ hf1
      rw [hph2, hf2, hval]
      show some ({ p with isLiked := some b } : PhotoRow) = some p
      rw [← hb]
    · rw [hph2, filter_not_map_update (fun q : PhotoRow => q.id == pid)
          (fun q => { q with isLiked := some (!(jsTruthy
              ({ p with isLiked := some (!(jsTruthy p.isLiked)) } : PhotoRow).isLiked)) })
          (fun x hx => hx),
        hph1, filter_not_map_update (fun q : PhotoRow => q.id == pid)
          (fun q => { q with isLiked := some (!(jsTruthy p.isLiked)) })
          (fun x hx => hx)]

/-- State for the C10 witness: one photo with `isLiked = true` among another
photo with a different id. -/
def dbC10b : DB :=
  { users := [], sessions := [], collections := [],
    photos := [{ id := 41, title := "other", filePath := "k41", isLiked := some false,
                 collectionId := none, isTemporary := false, sessionId := none,
                 expiresAt := none },
               { id := 42, title := "p", filePath := "k42", isLiked := some true,
                 collectionId := none, isTemporary := false, sessionId := none,
                 expiresAt := none }],
    owners := [], partnerships := [] }

/-- Witness for C10 (amended): double toggle of photo 42 (liked = true)
restores it and leaves photo 41 alone; a missing id is a no-op. -/
theorem c10_toggle_like_photo_witness :
    (toggleLikePhoto dbC10b 99 = (none, dbC10b))
    ∧ ((toggleLikePhoto dbC10b 42).1
        = some { id := 42, title := "p", filePath := "k42", isLiked := some false,
                 collectionId := none, isTemporary := false, sessionId := none,
                 expiresAt := none })
    ∧ ((toggleLikePhoto (toggleLikePhoto dbC10b 42).2 42).2.photos.find?
          (fun q => q.id == 42)
        = some { id := 42, title := "p", filePath := "k42", isLiked := some true,
                 collectionId := none, isTemporary := false, sessionId := none,
                 expiresAt := none })
    ∧ ((toggleLikePhoto (toggleLikePhoto dbC10b 42).2 42).2.photos.filter
          (fun q => !(q.id == 42))
        = dbC10b.photos.filter (fun q => !(q.id == 42))) :=
  have h3 := c10_toggle_like_photo.2.2 dbC10b 42
    { id := 42, title := "p", filePath := "k42", isLiked := some true,
      collectionId := none, isTemporary := false, sessionId := none,
      expiresAt := none } true (by decide) (by decide)
  ⟨c10_toggle_like_photo.1 dbC10b 99 (by decide),
   c10_toggle_like_photo.2.1 dbC10b 42
      { id := 42, title := "p", filePath := "k42", isLiked := some true,
        collectionId := none, isTemporary := false, sessionId := none,
        expiresAt := none } (by decide),
   h3.1, h3.2⟩

end Memri
